import Mathlib

/-!
Verification of the face-recognition HTTP orchestration layer
(`working_api.js`, with the earlier variant kept in the repository as a
second handler).  The layer is modelled as pure functions over an
environment of oracles standing for the external collaborators: the HTTP
fetch transport, the image decoder, and the face-recognition engine
(detection and descriptor distance).  Each operation additionally returns
the list of external-effect events it performs, so that claims about
"no further processing" and "loaded once at process start" can be stated.
-/

namespace FaceApi

/-- Opaque handle for a decoded in-memory image. -/
abbrev Image := Nat

/-- Opaque handle for a face descriptor vector; distances between
descriptors are supplied by the engine oracle. -/
abbrev Descriptor := Nat

/-- Constant `MAX_RETRIES` of `working_api.js`. -/
def MAX_RETRIES : Nat := 3

/-- Constant `FACE_MATCHER_THRESHOLD` of `working_api.js`. -/
def FACE_MATCHER_THRESHOLD : ℚ := 6/10

/-- External-effect events performed by the handler. -/
inductive Ev where
  /-- one `loadFromDisk` call for the named net inside `initializeModels` -/
  | loadNet (net : String)
  /-- one `fetch` call for `url`, `attempt` being the 1-based attempt index -/
  | fetchAttempt (url : String) (attempt : Nat)
  /-- one `detectSingleFace(...).withFaceLandmarks().withFaceDescriptor()` call -/
  | detectSingleOp (img : Image)
  /-- one `detectAllFaces(...).withFaceLandmarks().withFaceDescriptors()` call -/
  | detectAllOp (img : Image)
deriving DecidableEq

/-- Environment of oracles for the external collaborators. -/
structure Env where
  /-- whether the three `loadFromDisk` calls of `initializeModels` succeed -/
  modelsOk : Bool
  /-- message carried by the failing `loadFromDisk` call when `modelsOk = false` -/
  modelErrMsg : String
  /-- outcome of the `fetch`-and-decode of `url` on a given 1-based attempt:
  either the decoded image or the thrown `error.message` -/
  fetch : String → Nat → Except String Image
  /-- result of `faceapi.detectSingleFace(img)` with landmarks and descriptor: at most one descriptor -/
  single : Image → Option Descriptor
  /-- result of `faceapi.detectAllFaces(img)` with landmarks and descriptors: one descriptor per detected face -/
  all : Image → List Descriptor
  /-- the engine descriptor distance (euclidean over the opaque vectors) -/
  dist : Descriptor → Descriptor → ℚ

/-- Message of the error thrown when the retry loop exhausts its attempts. -/
def retryFailMsg (retries : Nat) (msg : String) : String :=
  "Failed to load image after " ++ toString retries ++ " attempts: " ++ msg

/-- The retry loop body of `loadImageWithRetry`: attempts run from `attempt`
while `attempt ≤ retries`; a successful fetch returns at once, a failure at
`attempt = retries` raises the final error, any other failure backs off and
retries.  `fuel` counts the loop iterations still allowed and is consumed
one per attempt; starting it at `retries` makes the recursion total while
reproducing the `for (let attempt = 1; attempt <= retries; attempt++)`
bounds exactly (a `fuel = 0` exit corresponds to the loop ending without a
`return`, which in the source resolves the promise with `undefined` and can
only happen when `retries = 0`). -/
def fetchLoop (f : Nat → Except String Image) (retries : Nat) (url : String) :
    Nat → Nat → Except String Image × List Ev
  | _, 0 => (.error "undefined", [])
  | attempt, fuel + 1 =>
    match f attempt with
    | .ok img => (.ok img, [Ev.fetchAttempt url attempt])
    | .error msg =>
      if attempt = retries then
        (.error (retryFailMsg retries msg), [Ev.fetchAttempt url attempt])
      else
        let rest := fetchLoop f retries url (attempt + 1) fuel
        (rest.1, Ev.fetchAttempt url attempt :: rest.2)

/-- Function `loadImageWithRetry(url, retries = MAX_RETRIES)` over the fetch oracle
`f` for that url.  Also returns the fetch events, one per attempt made. -/
def loadImageWithRetry (f : Nat → Except String Image) (url : String)
    (retries : Nat := MAX_RETRIES) : Except String Image × List Ev :=
  fetchLoop f retries url 1 retries

/-- JavaScript value supplied as the `id` field of a dataset entry
(`id: string|number` in the interface, but anything can arrive). -/
inductive JsId where
  | num (n : Int)
  | str (s : String)
  | missing
deriving DecidableEq

/-- JavaScript truthiness of an `id` value (`!entry.id`): the number 0 and
the empty string are falsy, as is an absent field. -/
def JsId.truthy : JsId → Bool
  | .num n => n ≠ 0
  | .str s => s ≠ ""
  | .missing => false

/-- Conversion `id.toString()`. -/
def JsId.toStr : JsId → String
  | .num n => toString n
  | .str s => s
  | .missing => "undefined"

/-- A dataset entry as received: JSON `null` (or `undefined`), some other
non-object value, or an object with an `id` value and an optional
`imglink` string (`none` = absent).  The `nullish` case matters because
destructuring `id` and `imglink` out of such an entry throws. -/
inductive JsEntry where
  /-- a JSON `null` / `undefined` entry: destructuring it throws -/
  | nullish
  /-- a defined non-object entry (number, string, boolean): destructuring
  yields undefined fields without throwing -/
  | nonObject
  | obj (id : JsId) (imglink : Option String)
deriving DecidableEq

/-- JavaScript truthiness of the `imglink` field (`!entry.imglink`). -/
def linkTruthy : Option String → Bool
  | none => false
  | some s => s ≠ ""

/-- Whether a character list occurs starting at the head of another. -/
def matchHere : List Char → List Char → Bool
  | [], _ => true
  | _ :: _, [] => false
  | c :: cs, d :: ds => c = d && matchHere cs ds

/-- Whether a character list occurs anywhere inside another. -/
def hasSub : List Char → List Char → Bool
  | pat, [] => matchHere pat []
  | pat, d :: ds => matchHere pat (d :: ds) || hasSub pat ds

/-- Whether `pat` occurs as a contiguous substring of `s`. -/
def strHas (s pat : String) : Bool :=
  hasSub pat.data s.data

/-- The test of the regular expression `/^https?:\/\/.+/`: the string is
`http://` or `https://` followed by at least one character (the protocol
head is checked structurally over the character list). -/
def urlFormat (s : String) : Bool :=
  (matchHere "http://".data s.data && 7 < s.length) ||
    (matchHere "https://".data s.data && 8 < s.length)

/-- Function `validateDatasetEntry(entry)`: throws (as `.error` with the thrown
message) on a non-object, on a falsy `id` or `imglink`, and on an
`imglink` that fails the URL pattern; returns `true` otherwise. -/
def validateDatasetEntry : JsEntry → Except String Bool
  | .nullish => .error "Invalid dataset entry format"
  | .nonObject => .error "Invalid dataset entry format"
  | .obj id imglink =>
    if !(id.truthy && linkTruthy imglink) then
      .error "Missing required fields: id or imglink"
    else if !(urlFormat (imglink.getD "")) then
      .error "Invalid image URL format"
    else
      .ok true

/-- Output of the reference-set builder: `new faceapi.LabeledFaceDescriptors(label, descriptors)`. -/
structure LabeledDescriptor where
  label : String
  descriptors : List Descriptor
deriving DecidableEq

/-- Message of the TypeError thrown when the destructuring of `id` and
`imglink` out of the entry meets a `null` or `undefined` value (the exact
engine wording is immaterial to the model, so no quotes are reproduced). -/
def destructureErrMsg : String :=
  "Cannot destructure property id of data as it is null"

/-- The `try` block of `processSingleFace(data)` — everything after the
destructuring: validate the entry, load its image with retry, run
single-face detection, and wrap the descriptor; every failure inside the
block is caught and turned into `null`.  Also returns the external events
performed (none when validation throws first). -/
def processSingleFaceBody (env : Env) (e : JsEntry) : Option LabeledDescriptor × List Ev :=
  match validateDatasetEntry e with
  | .error _ => (none, [])
  | .ok _ =>
    match e with
    | .nullish => (none, [])
    | .nonObject => (none, [])
    | .obj id imglink =>
      let url := imglink.getD ""
      match loadImageWithRetry (env.fetch url) url with
      | (.error _, evs) => (none, evs)
      | (.ok img, evs) =>
        match env.single img with
        | none => (none, evs ++ [Ev.detectSingleOp img])
        | some d => (some ⟨id.toStr, [d]⟩, evs ++ [Ev.detectSingleOp img])

/-- Function `processSingleFace(data)`: the destructuring of `id` and
`imglink` out of the entry runs before the `try`, so a `null` or
`undefined` entry throws an uncaught TypeError and the async function
rejects (`.error`); every other entry settles (`.ok`) to `null` or to a
labeled descriptor via the caught `try` block. -/
def processSingleFace (env : Env) (e : JsEntry) :
    Except String (Option LabeledDescriptor) × List Ev :=
  match e with
  | .nullish => (.error destructureErrMsg, [])
  | e => (.ok (processSingleFaceBody env e).1, (processSingleFaceBody env e).2)

/-- Behaviour of `Promise.all` over the per-entry promises: it rejects
with the first rejection, otherwise it resolves to the list of settled
values. -/
def promiseAll {α : Type} : List (Except String α) → Except String (List α)
  | [] => .ok []
  | .error m :: _ => .error m
  | .ok v :: rest => (promiseAll rest).map (v :: ·)

/-- The value a non-rejecting entry settles to in the `Promise.all`
array: the labeled descriptor on success, `null` when its failure was
caught inside the `try` block. -/
def entrySlot (env : Env) (e : JsEntry) : Option LabeledDescriptor :=
  match (processSingleFace env e).1 with
  | .ok r => r
  | .error _ => none

/-- Function `loadLabeledImages(dataset)` of `working_api.js`: await the
`Promise.all` over `processSingleFace` (a rejected slot rejects the whole
call, surfacing the TypeError to the handler catch), filter out the
`null` slots, and throw when nothing survives.  No slot is cancelled, so
the events of every entry still happen. -/
def loadLabeledImages (env : Env) (dataset : List JsEntry) :
    Except String (List LabeledDescriptor) × List Ev :=
  let labeledDescriptors := dataset.map (processSingleFace env)
  let evs := (labeledDescriptors.map Prod.snd).flatten
  match promiseAll (labeledDescriptors.map Prod.fst) with
  | .error m => (.error m, evs)
  | .ok settled =>
    let validDescriptors := settled.filterMap id
    if validDescriptors = [] then
      (.error "No valid face descriptors could be generated from the dataset", evs)
    else
      (.ok validDescriptors, evs)

/-- Function `initializeModels()`: `Promise.all` over the three
`loadFromDisk` calls (all three are initiated, hence three events), with
the failure rewrapped in a new message. -/
def initializeModels (env : Env) : Except String Unit × List Ev :=
  (if env.modelsOk then .ok () else
    .error ("Failed to load face recognition models: " ++ env.modelErrMsg),
   [Ev.loadNet "faceRecognitionNet", Ev.loadNet "faceLandmark68Net",
    Ev.loadNet "ssdMobilenetv1"])

/-- Result of `faceMatcher.findBestMatch`: a label and a distance. -/
structure FaceMatch where
  label : String
  distance : ℚ
deriving DecidableEq

/-- Mean distance of the query descriptor to the descriptors of one label
(engine contract, spec section 4.4; every reference built by this layer
holds exactly one descriptor, so the mean is that single distance). -/
def computeMeanDistance (dist : Descriptor → Descriptor → ℚ) (q : Descriptor)
    (ds : List Descriptor) : ℚ :=
  (ds.map (dist q)).sum / ds.length

/-- Best (minimum mean distance) match over the labeled references, later
entries winning ties (engine contract, spec section 4.4).  The `[]` case
is unreachable: the handler only builds a matcher from a non-empty
reference set. -/
def matchDescriptor (dist : Descriptor → Descriptor → ℚ)
    (refs : List LabeledDescriptor) (q : Descriptor) : FaceMatch :=
  match refs.map (fun r => FaceMatch.mk r.label (computeMeanDistance dist q r.descriptors)) with
  | [] => ⟨"unknown", 0⟩
  | m :: rest => rest.foldl (fun best curr => if best.distance < curr.distance then best else curr) m

/-- Function `faceMatcher.findBestMatch(descriptor)` with the constructor
threshold: below the threshold the best label is kept, otherwise the
label becomes "unknown" while the distance is still reported. -/
def findBestMatch (dist : Descriptor → Descriptor → ℚ)
    (refs : List LabeledDescriptor) (q : Descriptor) : FaceMatch :=
  let best := matchDescriptor dist refs q
  if best.distance < FACE_MATCHER_THRESHOLD then best else ⟨"unknown", best.distance⟩

/-- Rounding performed by `x.toFixed(2)`: round to the nearest hundredth,
ties toward positive infinity (the larger candidate), as the exact
rational value the produced string denotes. -/
def toFixed2 (q : ℚ) : ℚ :=
  ((⌊q * 100 + 1/2⌋ : ℤ) : ℚ) / 100

/-- One element of the `matches` array of a 200 response; `confidence` is
the numeric value displayed by `((1 - distance) * 100).toFixed(2) + "%"`. -/
structure MatchEntry where
  label : String
  distance : ℚ
  confidence : ℚ
deriving DecidableEq

/-- Shape of a `matches` element built from a `findBestMatch` result. -/
def toMatchEntry (m : FaceMatch) : MatchEntry :=
  ⟨m.label, m.distance, toFixed2 ((1 - m.distance) * 100)⟩

/-- The three response shapes the handler produces. -/
inductive Resp where
  /-- status 400 with a structured error body -/
  | badRequest (err : String)
  /-- status 500 with `error: "Internal server error"` and the thrown message -/
  | serverError (msg : String)
  /-- status 200 with `success: true`, `totalFacesDetected` and `matches` -/
  | ok (totalFacesDetected : Nat) (matchList : List MatchEntry)
deriving DecidableEq

/-- HTTP status code of a response. -/
def Resp.status : Resp → Nat
  | .badRequest _ => 400
  | .serverError _ => 500
  | .ok _ _ => 200

/-- The `dataset` field of the request body as received. -/
inductive DatasetField where
  | missing
  | nonArray
  | arr (entries : List JsEntry)
deriving DecidableEq

/-- The `group_img` field of the request body as received. -/
inductive GroupField where
  | missing
  | nonString
  | str (s : String)
deriving DecidableEq

/-- A request body. -/
structure Req where
  dataset : DatasetField
  group_img : GroupField
deriving DecidableEq

/-- The check `!dataset || !Array.isArray(dataset) || dataset.length === 0`:
returns the entries when the check passes. -/
def checkDataset : DatasetField → Option (List JsEntry)
  | .arr l => if l = [] then none else some l
  | _ => none

/-- The check `!group_img || typeof group_img !== "string"`: returns the
url when the check passes (an empty string is falsy and fails it). -/
def checkGroup : GroupField → Option String
  | .str s => if s = "" then none else some s
  | _ => none

/-- The `app.post("/")` handler of `working_api.js`: validation, model
initialization, reference-set building, group-image fetch and detection,
matching, response shaping; every uncaught throw becomes a 500.  The
second component is the ordered list of external events performed. -/
def handlePost (env : Env) (req : Req) : Resp × List Ev :=
  match checkDataset req.dataset with
  | none => (.badRequest "Invalid dataset format", [])
  | some dataset =>
    match checkGroup req.group_img with
    | none => (.badRequest "Invalid group_img", [])
    | some groupImg =>
      let initR := initializeModels env
      match initR.1 with
      | .error msg => (.serverError msg, initR.2)
      | .ok _ =>
        let refsR := loadLabeledImages env dataset
        match refsR.1 with
        | .error msg => (.serverError msg, initR.2 ++ refsR.2)
        | .ok refs =>
          let imgR := loadImageWithRetry (env.fetch groupImg) groupImg
          match imgR.1 with
          | .error msg => (.serverError msg, initR.2 ++ refsR.2 ++ imgR.2)
          | .ok img =>
            let detections := env.all img
            let evs := initR.2 ++ refsR.2 ++ imgR.2 ++ [Ev.detectAllOp img]
            if detections.length = 0 then
              (.badRequest "No faces detected in group image", evs)
            else
              let results := detections.map (findBestMatch env.dist refs)
              (.ok detections.length (results.map toMatchEntry), evs)

/-- A whole-process run: the server performs no work at start-up beyond
listening; each request is handled in turn and the events are those
of the handlers, concatenated. -/
def serverRun (env : Env) : List Req → List Resp × List Ev
  | [] => ([], [])
  | r :: rs =>
    let h := handlePost env r
    let rest := serverRun env rs
    (h.1 :: rest.1, h.2 ++ rest.2)

namespace P0

/-- Oracles for the earlier variant (the uncommented half of the unnamed
source file): its `loadImage` helper performs a single fetch, no retry. -/
structure Env where
  modelsOk : Bool
  modelErrMsg : String
  fetch : String → Except String Image
  single : Image → Option Descriptor
  all : Image → List Descriptor
  dist : Descriptor → Descriptor → ℚ

/-- Per-entry body of the variant `loadLabeledImages`: its destructuring
also runs before the `try`, so a `null`/`undefined` entry rejects the
slot; a falsy `id` or `imglink` yields `null`; any throw inside the `try`
is caught into `null` (a primitive entry destructures to undefined fields
and hits the falsy check). -/
def processEntry (env : Env) : JsEntry → Except String (Option LabeledDescriptor)
  | .nullish => .error destructureErrMsg
  | .nonObject => .ok none
  | .obj id imglink =>
    if !(id.truthy && linkTruthy imglink) then .ok none
    else
      match env.fetch (imglink.getD "") with
      | .error _ => .ok none
      | .ok img =>
        match env.single img with
        | none => .ok none
        | some d => .ok (some ⟨id.toStr, [d]⟩)

/-- Variant `loadLabeledImages`: awaits the `Promise.all` (a rejected slot
rejects the whole call) and filters the `null`s. -/
def loadLabeledImages (env : Env) (dataset : List JsEntry) :
    Except String (List LabeledDescriptor) :=
  (promiseAll (dataset.map (processEntry env))).map (List.filterMap id)

/-- Responses of the variant handler; its 500s carry an `error` field and
the underlying message, its 200 body has only `success` and `matches`
(label and distance, no confidence). -/
inductive Resp where
  | badRequest (err : String)
  | serverError (err : String) (msg : String)
  | ok (matchList : List FaceMatch)
deriving DecidableEq

/-- HTTP status code of a variant response. -/
def Resp.status : Resp → Nat
  | .badRequest _ => 400
  | .serverError _ _ => 500
  | .ok _ => 200

/-- Request body of the variant handler; `group_img` is kept as an
optional string (`none` = absent). -/
structure Req where
  dataset : DatasetField
  group_img : Option String

/-- The variant `app.post("/")` handler: note that it does not reject an
empty dataset array, checks `!group_img` only, returns its own 500 when
model loading fails, returns 400 when the reference set is empty, and a
rejected `loadLabeledImages` (a `null` entry) falls to its outer catch as
a 500 with `error: "Internal server error"`. -/
def handlePost (env : Env) (req : Req) : Resp :=
  match req.dataset with
  | .missing => .badRequest "Invalid dataset format"
  | .nonArray => .badRequest "Invalid dataset format"
  | .arr dataset =>
    match req.group_img with
    | none => .badRequest "Missing group_img"
    | some g =>
      if g = "" then .badRequest "Missing group_img"
      else if !env.modelsOk then
        .serverError "Failed to load face recognition models" env.modelErrMsg
      else
        match loadLabeledImages env dataset with
        | .error msg => .serverError "Internal server error" msg
        | .ok refs =>
          if refs = [] then
            .badRequest "No valid face descriptors could be generated from the dataset"
          else
            match env.fetch g with
            | .error msg => .serverError "Failed to process group image" msg
            | .ok img =>
              .ok ((env.all img).map (findBestMatch env.dist refs))

end P0

/-!
## Helper lemmas
-/

theorem matchHere_self (l : List Char) : matchHere l l = true := by
  induction l with
  | nil => rfl
  | cons c cs ih => simp [matchHere, ih]

theorem hasSub_append (a b : List Char) : hasSub b (a ++ b) = true := by
  induction a with
  | nil =>
    cases b with
    | nil => rfl
    | cons d ds => simp [hasSub, matchHere_self]
  | cons c cs ih =>
    simp [hasSub, ih]

theorem strHas_append (a b : String) : strHas (a ++ b) b = true := by
  simp [strHas, hasSub_append]

theorem loadImageWithRetry_ok1 (f : Nat → Except String Image) (url : String) (i : Image)
    (h1 : f 1 = .ok i) :
    loadImageWithRetry f url = (.ok i, [Ev.fetchAttempt url 1]) := by
  simp [loadImageWithRetry, fetchLoop, MAX_RETRIES, h1]

theorem loadImageWithRetry_ok2 (f : Nat → Except String Image) (url : String) (m1 : String)
    (i : Image) (h1 : f 1 = .error m1) (h2 : f 2 = .ok i) :
    loadImageWithRetry f url = (.ok i, [Ev.fetchAttempt url 1, Ev.fetchAttempt url 2]) := by
  simp [loadImageWithRetry, fetchLoop, MAX_RETRIES, h1, h2]

theorem loadImageWithRetry_ok3 (f : Nat → Except String Image) (url : String) (m1 m2 : String)
    (i : Image) (h1 : f 1 = .error m1) (h2 : f 2 = .error m2) (h3 : f 3 = .ok i) :
    loadImageWithRetry f url =
      (.ok i, [Ev.fetchAttempt url 1, Ev.fetchAttempt url 2, Ev.fetchAttempt url 3]) := by
  simp [loadImageWithRetry, fetchLoop, MAX_RETRIES, h1, h2, h3]

theorem loadImageWithRetry_err (f : Nat → Except String Image) (url : String) (m1 m2 m3 : String)
    (h1 : f 1 = .error m1) (h2 : f 2 = .error m2) (h3 : f 3 = .error m3) :
    loadImageWithRetry f url =
      (.error (retryFailMsg 3 m3),
        [Ev.fetchAttempt url 1, Ev.fetchAttempt url 2, Ev.fetchAttempt url 3]) := by
  simp [loadImageWithRetry, fetchLoop, MAX_RETRIES, h1, h2, h3]

/-!
## Claim theorems
-/

/-- C4: for every URL, `loadImageWithRetry` makes at most `MAX_RETRIES` (3)
fetch attempts; if some attempt among the first 3 succeeds, the image is
returned with exactly that many attempts made (in particular a URL failing
exactly twice then succeeding returns the image on the third attempt); if
all 3 attempts fail, exactly 3 attempts are made and a fetch error is
raised. -/
theorem loadImageWithRetry_attempt_spec (f : Nat → Except String Image) (url : String) :
    (loadImageWithRetry f url).2.length ≤ MAX_RETRIES ∧
    (∀ k i, 1 ≤ k → k ≤ MAX_RETRIES →
      (∀ j, 1 ≤ j → j < k → ∃ m, f j = .error m) → f k = .ok i →
      (loadImageWithRetry f url).1 = .ok i ∧ (loadImageWithRetry f url).2.length = k) ∧
    ((∀ j, 1 ≤ j → j ≤ MAX_RETRIES → ∃ m, f j = .error m) →
      (∃ m, f MAX_RETRIES = .error m ∧
        (loadImageWithRetry f url).1 = .error (retryFailMsg MAX_RETRIES m)) ∧
      (loadImageWithRetry f url).2.length = MAX_RETRIES) := by
  refine ⟨?_, ?_, ?_⟩
  · cases hf1 : f 1 with
    | ok i => rw [loadImageWithRetry_ok1 f url i hf1]; norm_num [MAX_RETRIES]
    | error m1 =>
      cases hf2 : f 2 with
      | ok i => rw [loadImageWithRetry_ok2 f url m1 i hf1 hf2]; norm_num [MAX_RETRIES]
      | error m2 =>
        cases hf3 : f 3 with
        | ok i =>
          rw [loadImageWithRetry_ok3 f url m1 m2 i hf1 hf2 hf3]; norm_num [MAX_RETRIES]
        | error m3 =>
          rw [loadImageWithRetry_err f url m1 m2 m3 hf1 hf2 hf3]; norm_num [MAX_RETRIES]
  · intro k i hk1 hk3 hprev hok
    norm_num [MAX_RETRIES] at hk3
    interval_cases k
    · rw [loadImageWithRetry_ok1 f url i hok]; simp
    · obtain ⟨m1, h1⟩ := hprev 1 (by norm_num) (by norm_num)
      rw [loadImageWithRetry_ok2 f url m1 i h1 hok]; simp
    · obtain ⟨m1, h1⟩ := hprev 1 (by norm_num) (by norm_num)
      obtain ⟨m2, h2⟩ := hprev 2 (by norm_num) (by norm_num)
      rw [loadImageWithRetry_ok3 f url m1 m2 i h1 h2 hok]; simp
  · intro hall
    obtain ⟨m1, h1⟩ := hall 1 (by norm_num) (by norm_num [MAX_RETRIES])
    obtain ⟨m2, h2⟩ := hall 2 (by norm_num) (by norm_num [MAX_RETRIES])
    obtain ⟨m3, h3⟩ := hall 3 (by norm_num) (by norm_num [MAX_RETRIES])
    refine ⟨⟨m3, h3, ?_⟩, ?_⟩ <;>
      · rw [loadImageWithRetry_err f url m1 m2 m3 h1 h2 h3]
        rfl

/-- Concrete fetch oracle that fails exactly twice and then succeeds. -/
def fC4 : Nat → Except String Image :=
  fun k => if k ≤ 2 then .error "network down" else .ok 7

/-- Witness for the C4 theorem: on a URL failing exactly twice and then
succeeding, the image is returned and exactly 3 attempts are made. -/
theorem loadImageWithRetry_attempt_spec_witness :
    (loadImageWithRetry fC4 "http://img.example/a.png").1 = .ok 7 ∧
    (loadImageWithRetry fC4 "http://img.example/a.png").2.length = 3 :=
  (loadImageWithRetry_attempt_spec fC4 "http://img.example/a.png").2.1 3 7
    (by norm_num) (by norm_num [MAX_RETRIES])
    (by
      intro j hj1 hj2
      interval_cases j
      · exact ⟨"network down", rfl⟩
      · exact ⟨"network down", rfl⟩)
    (by rfl)

/-- Concrete fetch oracle that always fails, for the C5 counterexample. -/
def fC5 : Nat → Except String Image := fun _ => .error "socket hang up"

/-- C5 counterexample: when all retries for
`http://img.example/a.png` are exhausted, the raised error message is
`Failed to load image after 3 attempts: socket hang up`, which carries the
last underlying error message but does not contain the URL, contradicting
the claim that it carries both. -/
theorem retryError_no_url_counterexample :
    (loadImageWithRetry fC5 "http://img.example/a.png").1 =
      .error "Failed to load image after 3 attempts: socket hang up" ∧
    strHas "Failed to load image after 3 attempts: socket hang up"
      "http://img.example/a.png" = false := by
  constructor
  · rfl
  · decide

/-- C5 amended: when `loadImageWithRetry` exhausts all retry attempts, the
raised error carries the last underlying error message and the attempt
count, but not the URL (the URL appears only in the logged output). -/
theorem retryError_carries_last_message (f : Nat → Except String Image) (url m3 : String)
    (h1 : ∃ m, f 1 = .error m) (h2 : ∃ m, f 2 = .error m) (h3 : f 3 = .error m3) :
    (loadImageWithRetry f url).1 = .error (retryFailMsg MAX_RETRIES m3) ∧
    strHas (retryFailMsg MAX_RETRIES m3) m3 = true := by
  obtain ⟨m1, h1⟩ := h1
  obtain ⟨m2, h2⟩ := h2
  refine ⟨by rw [loadImageWithRetry_err f url m1 m2 m3 h1 h2 h3]; rfl, ?_⟩
  simpa [retryFailMsg] using
    strHas_append ("Failed to load image after " ++ toString MAX_RETRIES ++ " attempts: ") m3

/-- Concrete fetch oracle that always fails, for the C5 witness. -/
def fC5w : Nat → Except String Image := fun _ => .error "boom"

/-- Witness for the amended C5 theorem at a concrete oracle. -/
theorem retryError_carries_last_message_witness :
    (loadImageWithRetry fC5w "http://img.example/b.png").1 =
      .error (retryFailMsg MAX_RETRIES "boom") ∧
    strHas (retryFailMsg MAX_RETRIES "boom") "boom" = true :=
  retryError_carries_last_message fC5w "http://img.example/b.png" "boom"
    ⟨"boom", rfl⟩ ⟨"boom", rfl⟩ rfl

theorem processSingleFace_some (env : Env) (e : JsEntry) (L : LabeledDescriptor)
    (h : (processSingleFace env e).1 = .ok (some L)) :
    ∃ idv link d, e = .obj idv link ∧ L = ⟨idv.toStr, [d]⟩ := by
  cases e with
  | nullish => simp [processSingleFace] at h
  | nonObject => simp [processSingleFace, processSingleFaceBody, validateDatasetEntry] at h
  | obj idv link =>
    refine ⟨idv, link, ?_⟩
    simp only [processSingleFace, Except.ok.injEq] at h
    simp only [processSingleFaceBody] at h
    split at h
    · simp at h
    · split at h
      · simp at h
      · split at h
        · simp at h
        · simp only [Option.some.injEq] at h
          exact ⟨_, rfl, h.symm⟩

theorem processSingleFace_ok (env : Env) (e : JsEntry) (h : e ≠ .nullish) :
    (processSingleFace env e).1 = .ok (entrySlot env e) := by
  cases e with
  | nullish => exact absurd rfl h
  | nonObject => rfl
  | obj idv link => rfl

theorem processSingleFace_error_inv (env : Env) (e : JsEntry) (m : String)
    (h : (processSingleFace env e).1 = .error m) :
    e = .nullish ∧ m = destructureErrMsg := by
  cases e with
  | nullish =>
    simp only [processSingleFace, Except.error.injEq] at h
    exact ⟨rfl, h.symm⟩
  | nonObject => simp [processSingleFace] at h
  | obj idv link => simp [processSingleFace] at h

theorem promiseAll_ok {α β : Type} (f : β → Except String α) (g : β → α) (l : List β)
    (h : ∀ e ∈ l, f e = .ok (g e)) :
    promiseAll (l.map f) = .ok (l.map g) := by
  induction l with
  | nil => rfl
  | cons e es ih =>
    simp only [List.map_cons, h e (List.mem_cons_self e es), promiseAll]
    rw [ih (fun x hx => h x (List.mem_cons_of_mem e hx))]
    rfl

theorem promiseAll_error {α : Type} (l : List (Except String α)) (E : String)
    (hall : ∀ m, Except.error m ∈ l → m = E)
    (hex : ∃ m, Except.error m ∈ l) :
    promiseAll l = .error E := by
  induction l with
  | nil =>
    obtain ⟨m, hm⟩ := hex
    simp at hm
  | cons x xs ih =>
    cases x with
    | error m =>
      have hE := hall m (List.mem_cons_self _ _)
      subst hE
      rfl
    | ok v =>
      obtain ⟨m, hm⟩ := hex
      rcases List.mem_cons.mp hm with h1 | h1
      · exact absurd h1 (by simp)
      · have hrec := ih (fun m' hm' => hall m' (List.mem_cons_of_mem _ hm')) ⟨m, h1⟩
        simp only [promiseAll, hrec]
        rfl

theorem loadLabeledImages_fst (env : Env) (ds : List JsEntry)
    (hnn : JsEntry.nullish ∉ ds) :
    (loadLabeledImages env ds).1 =
      if ds.filterMap (entrySlot env) = [] then
        .error "No valid face descriptors could be generated from the dataset"
      else .ok (ds.filterMap (entrySlot env)) := by
  have hall : promiseAll ((ds.map (processSingleFace env)).map Prod.fst) =
      .ok (ds.map (entrySlot env)) := by
    rw [List.map_map]
    exact promiseAll_ok _ _ ds (fun e he =>
      processSingleFace_ok env e (fun h => hnn (h ▸ he)))
  simp only [loadLabeledImages, hall, List.filterMap_map, Function.comp_def, id_eq]
  split <;> simp [*]

theorem loadLabeledImages_nullish (env : Env) (ds : List JsEntry)
    (h : JsEntry.nullish ∈ ds) :
    (loadLabeledImages env ds).1 = .error destructureErrMsg := by
  have herr : promiseAll ((ds.map (processSingleFace env)).map Prod.fst) =
      .error destructureErrMsg := by
    rw [List.map_map]
    apply promiseAll_error
    · intro m hm
      rw [List.mem_map] at hm
      obtain ⟨e, _, heq⟩ := hm
      exact (processSingleFace_error_inv env e m heq).2
    · exact ⟨destructureErrMsg, List.mem_map.mpr ⟨JsEntry.nullish, h, rfl⟩⟩
  simp only [loadLabeledImages, herr]

theorem loadLabeledImages_snd (env : Env) (ds : List JsEntry) :
    (loadLabeledImages env ds).2 = (ds.map (fun e => (processSingleFace env e).2)).flatten := by
  simp only [loadLabeledImages, List.map_map, Function.comp_def]
  split
  · rfl
  · split <;> rfl

/-- C10: every dataset entry whose `id` or `imglink` is falsy (for example
`id = 0`, `id = ""`, or a missing `imglink`) is dropped from the reference
set in both handler variants, whatever the fetch and detection oracles
would have returned for it, because validation tests truthiness rather
than presence. -/
theorem falsy_entry_dropped (env : Env) (env0 : P0.Env) (id : JsId) (link : Option String)
    (h : id.truthy = false ∨ linkTruthy link = false) :
    (processSingleFace env (.obj id link)).1 = .ok none ∧
    (processSingleFace env (.obj id link)).2 = [] ∧
    P0.processEntry env0 (.obj id link) = .ok none := by
  have hb : (id.truthy && linkTruthy link) = false := by
    rcases h with h | h <;> simp [h]
  refine ⟨?_, ?_, ?_⟩
  · simp [processSingleFace, processSingleFaceBody, validateDatasetEntry, hb]
  · simp [processSingleFace, processSingleFaceBody, validateDatasetEntry, hb]
  · simp [P0.processEntry, hb]

/-- Oracles for the C10 witness: every fetch succeeds and every image has
a detectable face, so only validation can drop the entry. -/
def envC10 : Env :=
  ⟨true, "", fun _ _ => .ok 0, fun _ => some 5, fun i => [i], fun _ _ => 0⟩

/-- Variant oracles for the C10 witness. -/
def envC10v : P0.Env :=
  ⟨true, "", fun _ => .ok 0, fun _ => some 5, fun i => [i], fun _ _ => 0⟩

/-- Witness for C10: the entry with `id = 0` and a valid URL whose image
contains a detectable face is still dropped. -/
theorem falsy_entry_dropped_witness :
    JsId.truthy (.num 0) = false ∧
    (processSingleFace envC10 (.obj (.num 0) (some "http://img.example/p.png"))).1 = .ok none ∧
    P0.processEntry envC10v (.obj (.num 0) (some "http://img.example/p.png")) = .ok none := by
  have h := falsy_entry_dropped envC10 envC10v (.num 0) (some "http://img.example/p.png")
    (Or.inl (by decide))
  exact ⟨by decide, h.1, h.2.2⟩

/-- Oracles for the C8 inputs: only the first reference URL is fetchable. -/
def envC8 : Env :=
  ⟨true, "",
   fun url _ => if url = "http://img.example/1.png" then .ok 0 else .error "HTTP error! status: 404",
   fun _ => some 3, fun i => [i], fun _ _ => 0⟩

/-- Dataset for the C8 counterexample: a JSON null entry followed by a
processable entry. -/
def dsC8cex : List JsEntry :=
  [.nullish, .obj (.num 1) (some "http://img.example/1.png")]

/-- C8 counterexample: the second entry alone is processable, yet a JSON
null first entry throws in the destructuring before the per-entry `try`,
rejects the whole `Promise.all`, and the builder returns the TypeError
instead of a one-descriptor list — one entry's invalid shape aborts the
others and the request answers 500. -/
theorem isolation_aborted_counterexample :
    (processSingleFace envC8 (.obj (.num 1) (some "http://img.example/1.png"))).1 =
      .ok (some ⟨"1", [3]⟩) ∧
    (loadLabeledImages envC8 dsC8cex).1 = .error destructureErrMsg ∧
    ((handlePost envC8 ⟨.arr dsC8cex, .str "http://img.example/g.png"⟩).1).status = 500 :=
  ⟨rfl, rfl, by decide⟩

/-- C8 amended: for datasets without JSON null or undefined entries,
`loadLabeledImages` processes every entry independently — its successful
result is exactly the pointwise filter-map of the settled per-entry slots
(one slot per entry, failed slots and nothing else removed, so such a
failure never aborts the others) — and every surviving element is a
`LabeledDescriptor` whose label is the entry id converted to a string and
which holds exactly one descriptor; a dataset containing a null or
undefined entry instead throws during destructuring outside the per-entry
`try` and rejects the whole builder with the TypeError, aborting the
other entries' results. -/
theorem loadLabeledImages_isolation (env : Env) (ds : List JsEntry)
    (hnn : JsEntry.nullish ∉ ds)
    (hne : ds.filterMap (entrySlot env) ≠ []) :
    (loadLabeledImages env ds).1 = .ok (ds.filterMap (entrySlot env)) ∧
    (∀ e ∈ ds, ∀ L, (processSingleFace env e).1 = .ok (some L) →
      ∃ idv link d, e = .obj idv link ∧ L = ⟨idv.toStr, [d]⟩) ∧
    (∀ ds', JsEntry.nullish ∈ ds' →
      (loadLabeledImages env ds').1 = .error destructureErrMsg) := by
  refine ⟨by rw [loadLabeledImages_fst env ds hnn, if_neg hne], ?_, ?_⟩
  · intro e _ L hL
    exact processSingleFace_some env e L hL
  · intro ds' h
    exact loadLabeledImages_nullish env ds' h

/-- Dataset for the C8 witness: one processable entry, one with a
malformed URL, no null entries. -/
def dsC8 : List JsEntry :=
  [.obj (.num 1) (some "http://img.example/1.png"), .obj (.num 2) (some "not-a-url")]

/-- Witness for the amended C8 theorem at a dataset with one processable
and one failed entry. -/
theorem loadLabeledImages_isolation_witness :
    (JsEntry.nullish ∉ dsC8 ∧ dsC8.filterMap (entrySlot envC8) ≠ []) ∧
    ((loadLabeledImages envC8 dsC8).1 = .ok (dsC8.filterMap (entrySlot envC8)) ∧
    (∀ e ∈ dsC8, ∀ L, (processSingleFace envC8 e).1 = .ok (some L) →
      ∃ idv link d, e = .obj idv link ∧ L = ⟨idv.toStr, [d]⟩) ∧
    (∀ ds', JsEntry.nullish ∈ ds' →
      (loadLabeledImages envC8 ds').1 = .error destructureErrMsg)) :=
  ⟨⟨by decide, by decide⟩, loadLabeledImages_isolation envC8 dsC8 (by decide) (by decide)⟩

/-- C9: a request whose `dataset` is missing, not an array, or an empty
array, or whose `group_img` is missing or not a non-empty string, is
answered 400 with a structured error body and triggers no model loading,
no image fetching and no detection. -/
theorem invalid_request_rejected (env : Env) (req : Req)
    (h : (req.dataset = .missing ∨ req.dataset = .nonArray ∨ req.dataset = .arr []) ∨
         (req.group_img = .missing ∨ req.group_img = .nonString ∨ req.group_img = .str "")) :
    (∃ err, (handlePost env req).1 = .badRequest err) ∧
    ((handlePost env req).1).status = 400 ∧
    (handlePost env req).2 = [] := by
  have hnone : checkDataset req.dataset = none ∨ checkGroup req.group_img = none := by
    rcases h with (h | h | h) | (h | h | h) <;> simp [h, checkDataset, checkGroup]
  rcases hnone with h' | h'
  · simp [handlePost, h', Resp.status]
  · cases hd : checkDataset req.dataset with
    | none => simp [handlePost, hd, Resp.status]
    | some ds => simp [handlePost, hd, h', Resp.status]

/-- Oracles for the C9 witness. -/
def envC9 : Env :=
  ⟨true, "", fun _ _ => .ok 0, fun _ => some 0, fun i => [i], fun _ _ => 0⟩

/-- Witness for C9 at a request with a missing dataset. -/
theorem invalid_request_rejected_witness :
    (Req.mk .missing (.str "http://img.example/g.png")).dataset = .missing ∧
    ((∃ err, (handlePost envC9 ⟨.missing, .str "http://img.example/g.png"⟩).1 = .badRequest err) ∧
    ((handlePost envC9 ⟨.missing, .str "http://img.example/g.png"⟩).1).status = 400 ∧
    (handlePost envC9 ⟨.missing, .str "http://img.example/g.png"⟩).2 = []) :=
  ⟨rfl, invalid_request_rejected envC9 ⟨.missing, .str "http://img.example/g.png"⟩
    (Or.inl (Or.inl rfl))⟩

theorem handlePost_init_fail (env : Env) (ds : List JsEntry) (g : String)
    (hds : ds ≠ []) (hg : g ≠ "") (hm : env.modelsOk = false) :
    handlePost env ⟨.arr ds, .str g⟩ =
      (.serverError ("Failed to load face recognition models: " ++ env.modelErrMsg),
       (initializeModels env).2) := by
  simp only [handlePost, checkDataset, checkGroup, if_neg hds, if_neg hg,
    initializeModels, hm, Bool.false_eq_true, if_false]

theorem handlePost_refs_fail (env : Env) (ds : List JsEntry) (g : String) (msg : String)
    (hds : ds ≠ []) (hg : g ≠ "") (hm : env.modelsOk = true)
    (hrefs : (loadLabeledImages env ds).1 = .error msg) :
    handlePost env ⟨.arr ds, .str g⟩ =
      (.serverError msg, (initializeModels env).2 ++ (loadLabeledImages env ds).2) := by
  simp only [handlePost, checkDataset, checkGroup, if_neg hds, if_neg hg,
    initializeModels, hm, if_true, hrefs]

theorem handlePost_group_fail (env : Env) (ds : List JsEntry) (g : String)
    (refs : List LabeledDescriptor) (m : String)
    (hds : ds ≠ []) (hg : g ≠ "") (hm : env.modelsOk = true)
    (hrefs : (loadLabeledImages env ds).1 = .ok refs)
    (himg : (loadImageWithRetry (env.fetch g) g).1 = .error m) :
    handlePost env ⟨.arr ds, .str g⟩ =
      (.serverError m,
       (initializeModels env).2 ++ (loadLabeledImages env ds).2 ++
         (loadImageWithRetry (env.fetch g) g).2) := by
  simp only [handlePost, checkDataset, checkGroup, if_neg hds, if_neg hg,
    initializeModels, hm, if_true, hrefs, himg]

theorem handlePost_nofaces (env : Env) (ds : List JsEntry) (g : String)
    (refs : List LabeledDescriptor) (img : Image)
    (hds : ds ≠ []) (hg : g ≠ "") (hm : env.modelsOk = true)
    (hrefs : (loadLabeledImages env ds).1 = .ok refs)
    (himg : (loadImageWithRetry (env.fetch g) g).1 = .ok img)
    (hdet : env.all img = []) :
    handlePost env ⟨.arr ds, .str g⟩ =
      (.badRequest "No faces detected in group image",
       (initializeModels env).2 ++ (loadLabeledImages env ds).2 ++
         (loadImageWithRetry (env.fetch g) g).2 ++ [Ev.detectAllOp img]) := by
  simp only [handlePost, checkDataset, checkGroup, if_neg hds, if_neg hg,
    initializeModels, hm, if_true, hrefs, himg, hdet, List.length_nil, if_pos rfl]

theorem handlePost_ok_path (env : Env) (ds : List JsEntry) (g : String)
    (refs : List LabeledDescriptor) (img : Image)
    (hds : ds ≠ []) (hg : g ≠ "") (hm : env.modelsOk = true)
    (hrefs : (loadLabeledImages env ds).1 = .ok refs)
    (himg : (loadImageWithRetry (env.fetch g) g).1 = .ok img)
    (hdet : env.all img ≠ []) :
    handlePost env ⟨.arr ds, .str g⟩ =
      (.ok (env.all img).length
        (((env.all img).map (findBestMatch env.dist refs)).map toMatchEntry),
       (initializeModels env).2 ++ (loadLabeledImages env ds).2 ++
         (loadImageWithRetry (env.fetch g) g).2 ++ [Ev.detectAllOp img]) := by
  have hlen : ¬((env.all img).length = 0) := by simp [List.length_eq_zero, hdet]
  simp only [handlePost, checkDataset, checkGroup, if_neg hds, if_neg hg,
    initializeModels, hm, if_true, hrefs, himg, if_neg hlen]

/-- C2: a valid non-empty dataset with at least one processable entry and
a group image that fetches and contains at least one detectable face give
a 200 response whose `matches` has exactly one element per detected face,
so its length equals `totalFacesDetected`. -/
theorem ok_response_matches_length (env : Env) (ds : List JsEntry) (g : String) (img : Image)
    (hds : ds ≠ []) (hnn : JsEntry.nullish ∉ ds) (hg : g ≠ "") (hm : env.modelsOk = true)
    (hproc : ∃ e ∈ ds, entrySlot env e ≠ none)
    (himg : (loadImageWithRetry (env.fetch g) g).1 = .ok img)
    (hdet : env.all img ≠ []) :
    ∃ ms, (handlePost env ⟨.arr ds, .str g⟩).1 = .ok (env.all img).length ms ∧
      ms.length = (env.all img).length ∧
      ((handlePost env ⟨.arr ds, .str g⟩).1).status = 200 := by
  have hne : ds.filterMap (entrySlot env) ≠ [] := by
    rw [Ne, List.filterMap_eq_nil_iff]
    push_neg
    exact hproc
  have hrefs : (loadLabeledImages env ds).1 = .ok (ds.filterMap (entrySlot env)) := by
    rw [loadLabeledImages_fst env ds hnn, if_neg hne]
  rw [handlePost_ok_path env ds g _ img hds hg hm hrefs himg hdet]
  exact ⟨_, rfl, by simp, rfl⟩

/-- Oracles for the C2 witness: everything succeeds and the group image
contains two faces. -/
def envC2 : Env :=
  ⟨true, "", fun url _ => .ok (if url = "http://img.example/g.png" then 1 else 0),
   fun _ => some 0, fun img => if img = 1 then [1, 2] else [], fun _ _ => 0⟩

/-- Dataset for the C2 witness. -/
def dsC2 : List JsEntry := [.obj (.num 1) (some "http://img.example/1.png")]

/-- Witness for C2: one processable reference, two detected faces, and the
response carries exactly two matches. -/
theorem ok_response_matches_length_witness :
    (JsEntry.nullish ∉ dsC2 ∧ ∃ e ∈ dsC2, entrySlot envC2 e ≠ none) ∧
    (∃ ms, (handlePost envC2 ⟨.arr dsC2, .str "http://img.example/g.png"⟩).1 =
        .ok (envC2.all 1).length ms ∧
      ms.length = (envC2.all 1).length ∧
      ((handlePost envC2 ⟨.arr dsC2, .str "http://img.example/g.png"⟩).1).status = 200) :=
  ⟨⟨by decide, by decide⟩,
   ok_response_matches_length envC2 dsC2 "http://img.example/g.png" 1
    (by decide) (by decide) (by decide) rfl (by decide) rfl (by decide)⟩

/-- C7: with a well-formed request, ready models and a non-empty reference
set, a group image that loads but contains zero detectable faces yields a
400 with a "no faces detected" error, while a group-image fetch failure
yields a 500 carrying the fetch error — the two outcomes are
distinguishable by status code. -/
theorem group_image_status_split (env : Env) (ds : List JsEntry) (g : String)
    (refs : List LabeledDescriptor)
    (hds : ds ≠ []) (hg : g ≠ "") (hm : env.modelsOk = true)
    (hrefs : (loadLabeledImages env ds).1 = .ok refs) :
    (∀ img, (loadImageWithRetry (env.fetch g) g).1 = .ok img → env.all img = [] →
      (handlePost env ⟨.arr ds, .str g⟩).1 = .badRequest "No faces detected in group image" ∧
      ((handlePost env ⟨.arr ds, .str g⟩).1).status = 400) ∧
    (∀ m, (loadImageWithRetry (env.fetch g) g).1 = .error m →
      (handlePost env ⟨.arr ds, .str g⟩).1 = .serverError m ∧
      ((handlePost env ⟨.arr ds, .str g⟩).1).status = 500) := by
  constructor
  · intro img himg hdet
    rw [handlePost_nofaces env ds g refs img hds hg hm hrefs himg hdet]
    exact ⟨rfl, rfl⟩
  · intro m himg
    rw [handlePost_group_fail env ds g refs m hds hg hm hrefs himg]
    exact ⟨rfl, rfl⟩

/-- Oracles for the C7 witness: reference images fetch and contain a face,
the group image fetches but contains no face. -/
def envC7 : Env :=
  ⟨true, "", fun url _ => .ok (if url = "http://img.example/g.png" then 1 else 0),
   fun _ => some 0, fun img => if img = 1 then [] else [9], fun _ _ => 0⟩

/-- Dataset for the C7 witness. -/
def dsC7 : List JsEntry := [.obj (.num 1) (some "http://img.example/1.png")]

/-- Witness for C7: the zero-faces branch answers 400 at a concrete
environment in which the group image loads but has no detectable face. -/
theorem group_image_status_split_witness :
    (loadLabeledImages envC7 dsC7).1 = .ok [⟨"1", [0]⟩] ∧
    envC7.all 1 = [] ∧
    ((handlePost envC7 ⟨.arr dsC7, .str "http://img.example/g.png"⟩).1 =
        .badRequest "No faces detected in group image" ∧
      ((handlePost envC7 ⟨.arr dsC7, .str "http://img.example/g.png"⟩).1).status = 400) :=
  ⟨rfl, rfl,
   (group_image_status_split envC7 dsC7 "http://img.example/g.png" [⟨"1", [0]⟩]
      (by decide) (by decide) rfl rfl).1 1 rfl rfl⟩

/-- Whether an event is a model `loadFromDisk` call. -/
def Ev.isLoadNet : Ev → Bool
  | .loadNet _ => true
  | _ => false

/-- Whether a request passes the two input-validation checks of the
handler. -/
def validReq (req : Req) : Bool :=
  (checkDataset req.dataset).isSome && (checkGroup req.group_img).isSome

theorem fetchLoop_no_load (f : Nat → Except String Image) (r : Nat) (url : String)
    (a fuel : Nat) :
    (fetchLoop f r url a fuel).2.countP (fun ev => ev.isLoadNet) = 0 := by
  induction fuel generalizing a with
  | zero => rfl
  | succ n ih =>
    simp only [fetchLoop]
    cases hf : f a with
    | ok i => simp [Ev.isLoadNet]
    | error m =>
      by_cases har : a = r
      · simp [har, Ev.isLoadNet]
      · dsimp only
        rw [if_neg har]
        dsimp only
        rw [List.countP_cons, ih (a + 1)]
        rfl

theorem loadImageWithRetry_no_load (f : Nat → Except String Image) (url : String) :
    (loadImageWithRetry f url).2.countP (fun ev => ev.isLoadNet) = 0 :=
  fetchLoop_no_load f MAX_RETRIES url 1 MAX_RETRIES

theorem processSingleFaceBody_no_load (env : Env) (e : JsEntry) :
    (processSingleFaceBody env e).2.countP (fun ev => ev.isLoadNet) = 0 := by
  cases e with
  | nullish => rfl
  | nonObject => simp [processSingleFaceBody, validateDatasetEntry]
  | obj idv link =>
    simp only [processSingleFaceBody]
    split
    · rfl
    · split
      · rename_i evs heq
        have h0 := loadImageWithRetry_no_load (env.fetch (link.getD "")) (link.getD "")
        rw [heq] at h0
        exact h0
      · rename_i img evs heq
        have h0 := loadImageWithRetry_no_load (env.fetch (link.getD "")) (link.getD "")
        rw [heq] at h0
        dsimp only at h0
        split <;>
          · rw [List.countP_append, h0]
            rfl

theorem processSingleFace_no_load (env : Env) (e : JsEntry) :
    (processSingleFace env e).2.countP (fun ev => ev.isLoadNet) = 0 := by
  cases e with
  | nullish => rfl
  | nonObject => exact processSingleFaceBody_no_load env .nonObject
  | obj idv link => exact processSingleFaceBody_no_load env (.obj idv link)

theorem loadLabeledImages_no_load (env : Env) (ds : List JsEntry) :
    (loadLabeledImages env ds).2.countP (fun ev => ev.isLoadNet) = 0 := by
  rw [loadLabeledImages_snd]
  induction ds with
  | nil => rfl
  | cons e es ih =>
    simp [List.countP_append, processSingleFace_no_load, ih]

theorem initializeModels_loads (env : Env) :
    (initializeModels env).2.countP (fun ev => ev.isLoadNet) = 3 := by
  simp [initializeModels, Ev.isLoadNet]

theorem handlePost_loads (env : Env) (req : Req) :
    (handlePost env req).2.countP (fun ev => ev.isLoadNet) =
      if validReq req then 3 else 0 := by
  unfold handlePost
  cases hd : checkDataset req.dataset with
  | none => simp [validReq, hd]
  | some ds =>
    cases hg : checkGroup req.group_img with
    | none => simp [validReq, hd, hg]
    | some g =>
      have hv : validReq req = true := by simp [validReq, hd, hg]
      rw [hv, if_pos rfl]
      dsimp only
      split
      · exact initializeModels_loads env
      · split
        · dsimp only
          rw [List.countP_append, initializeModels_loads, loadLabeledImages_no_load]
        · split
          · dsimp only
            rw [List.countP_append, List.countP_append, initializeModels_loads,
              loadLabeledImages_no_load, loadImageWithRetry_no_load]
          · split <;>
              · dsimp only
                rw [List.countP_append, List.countP_append, List.countP_append,
                  initializeModels_loads, loadLabeledImages_no_load, loadImageWithRetry_no_load]
                rfl

theorem serverRun_loads (env : Env) (reqs : List Req) :
    (serverRun env reqs).2.countP (fun ev => ev.isLoadNet) =
      3 * reqs.countP (fun r => validReq r) := by
  induction reqs with
  | nil => rfl
  | cons r rs ih =>
    simp only [serverRun, List.countP_append, List.countP_cons, handlePost_loads, ih]
    by_cases h : validReq r = true
    · simp [h]; ring
    · simp [h]

theorem handlePost_trace_head (env : Env) (ds : List JsEntry) (g : String)
    (hds : ds ≠ []) (hg : g ≠ "") :
    ∃ rest, (handlePost env ⟨.arr ds, .str g⟩).2 = (initializeModels env).2 ++ rest := by
  simp only [handlePost, checkDataset, checkGroup, if_neg hds, if_neg hg]
  split
  · exact ⟨[], (List.append_nil _).symm⟩
  · split
    · exact ⟨_, rfl⟩
    · split
      · exact ⟨_, by rw [List.append_assoc]⟩
      · split <;> exact ⟨_, by rw [List.append_assoc, List.append_assoc]⟩

/-- Oracles for the C3 counterexample: models load, every fetch fails. -/
def envC3cex : Env :=
  ⟨true, "", fun _ _ => .error "HTTP error! status: 404", fun _ => some 0, fun i => [i],
   fun _ _ => 0⟩

/-- A well-formed request for the C3 counterexample. -/
def reqC3cex : Req :=
  ⟨.arr [.obj (.num 1) (some "http://img.example/1.png")], .str "http://img.example/g.png"⟩

/-- Dataset for the C3 witness. -/
def dsC3w : List JsEntry := [.obj (.num 1) (some "http://img.example/1.png")]

/-- C3 counterexample: in a run serving two well-formed requests, the
`ssdMobilenetv1` model is loaded from disk twice — once per request — so
the models are not loaded exactly once at process start. -/
theorem models_reloaded_counterexample :
    (serverRun envC3cex [reqC3cex, reqC3cex]).2.count (Ev.loadNet "ssdMobilenetv1") = 2 ∧
    (2 : Nat) ≠ 1 :=
  ⟨by decide, by decide⟩

/-- C3 amended: the three recognition models are loaded from disk by every
request that passes input validation (the three `loadFromDisk` calls are
the first events of each such request's trace, and a whole run performs
three per valid request, not one atomic start-up load), and a load failure
yields a 500 response for that request. -/
theorem models_loaded_per_request (env : Env) (reqs : List Req) (ds : List JsEntry) (g : String)
    (hds : ds ≠ []) (hg : g ≠ "") :
    (serverRun env reqs).2.countP (fun ev => ev.isLoadNet) =
      3 * reqs.countP (fun r => validReq r) ∧
    (handlePost env ⟨.arr ds, .str g⟩).2.take 3 =
      [Ev.loadNet "faceRecognitionNet", Ev.loadNet "faceLandmark68Net",
       Ev.loadNet "ssdMobilenetv1"] ∧
    (env.modelsOk = false →
      (handlePost env ⟨.arr ds, .str g⟩).1 =
        .serverError ("Failed to load face recognition models: " ++ env.modelErrMsg) ∧
      ((handlePost env ⟨.arr ds, .str g⟩).1).status = 500) := by
  refine ⟨serverRun_loads env reqs, ?_, ?_⟩
  · obtain ⟨rest, hrest⟩ := handlePost_trace_head env ds g hds hg
    rw [hrest]
    rfl
  · intro hm
    rw [handlePost_init_fail env ds g hds hg hm]
    exact ⟨rfl, rfl⟩

/-- Oracles for the C3 witness: model loading fails. -/
def envC3w : Env :=
  ⟨false, "ENOENT: models directory missing", fun _ _ => .ok 0, fun _ => some 0,
   fun i => [i], fun _ _ => 0⟩

/-- Witness for the amended C3 theorem at a run with one valid request and
failing model loading. -/
theorem models_loaded_per_request_witness :
    ((serverRun envC3w [⟨.arr dsC3w, .str "http://img.example/g.png"⟩]).2.countP
        (fun ev => ev.isLoadNet) =
      3 * ([⟨.arr dsC3w, .str "http://img.example/g.png"⟩] : List Req).countP
        (fun r => validReq r) ∧
    (handlePost envC3w ⟨.arr dsC3w, .str "http://img.example/g.png"⟩).2.take 3 =
      [Ev.loadNet "faceRecognitionNet", Ev.loadNet "faceLandmark68Net",
       Ev.loadNet "ssdMobilenetv1"] ∧
    (envC3w.modelsOk = false →
      (handlePost envC3w ⟨.arr dsC3w, .str "http://img.example/g.png"⟩).1 =
        .serverError ("Failed to load face recognition models: " ++ envC3w.modelErrMsg) ∧
      ((handlePost envC3w ⟨.arr dsC3w, .str "http://img.example/g.png"⟩).1).status = 500)) :=
  models_loaded_per_request envC3w [⟨.arr dsC3w, .str "http://img.example/g.png"⟩]
    dsC3w "http://img.example/g.png" (by decide) (by decide)

/-- Oracles for the C1 failing input: models load, every fetch fails, so
every dataset entry fails. -/
def envC1 : Env :=
  ⟨true, "", fun _ _ => .error "HTTP error! status: 404", fun _ => some 0, fun i => [i],
   fun _ _ => 0⟩

/-- The same failing oracles for the variant handler. -/
def envC1v : P0.Env :=
  ⟨true, "", fun _ => .error "HTTP error! status: 404", fun _ => some 0, fun i => [i],
   fun _ _ => 0⟩

/-- Request whose every dataset entry fails (its only entry has an
unfetchable image). -/
def reqC1 : Req :=
  ⟨.arr [.obj (.num 1) (some "http://img.example/1.png")], .str "http://img.example/g.png"⟩

/-- The same request for the variant handler. -/
def reqC1v : P0.Req :=
  ⟨.arr [.obj (.num 1) (some "http://img.example/1.png")], some "http://img.example/g.png"⟩

/-- C1 (code bug): when every dataset entry fails, the `working_api.js`
handler responds 500 — the throw of `loadLabeledImages` falls through to
the generic catch — while the other handler variant kept in the repository
answers 400 carrying the same empty-reference-set message, which is what
the claim demands. -/
theorem emptyReferenceSet_gives_500 :
    (handlePost envC1 reqC1).1 =
      .serverError "No valid face descriptors could be generated from the dataset" ∧
    ((handlePost envC1 reqC1).1).status = 500 ∧
    P0.handlePost envC1v reqC1v =
      .badRequest "No valid face descriptors could be generated from the dataset" ∧
    (P0.handlePost envC1v reqC1v).status = 400 :=
  ⟨by decide, by decide, by decide, by decide⟩

theorem handlePost_ok_inv (env : Env) (req : Req) (n : Nat) (ms : List MatchEntry)
    (h : (handlePost env req).1 = .ok n ms) :
    ∃ refs dets, ms = (List.map (findBestMatch env.dist refs) dets).map toMatchEntry := by
  simp only [handlePost] at h
  split at h
  · simp at h
  · split at h
    · simp at h
    · split at h
      · simp at h
      · split at h
        · simp at h
        · split at h
          · simp at h
          · split at h
            · simp at h
            · dsimp only at h
              rw [Resp.ok.injEq] at h
              exact ⟨_, _, h.2.symm⟩

theorem toFixed2_nonneg_le (q : ℚ) (h0 : 0 ≤ q) (h1 : q ≤ 100) :
    0 ≤ toFixed2 q ∧ toFixed2 q ≤ 100 := by
  unfold toFixed2
  constructor
  · apply div_nonneg _ (by norm_num)
    have hz : (0 : ℤ) ≤ ⌊q * 100 + 1 / 2⌋ := by
      rw [Int.le_floor]
      push_cast
      linarith
    exact_mod_cast hz
  · rw [div_le_iff₀ (by norm_num : (0:ℚ) < 100)]
    have hz : ⌊q * 100 + 1 / 2⌋ < 10001 := by
      rw [Int.floor_lt]
      push_cast
      linarith
    have hz2 : ⌊q * 100 + 1 / 2⌋ ≤ 10000 := by omega
    calc ((⌊q * 100 + 1 / 2⌋ : ℤ) : ℚ) ≤ (10000 : ℚ) := by exact_mod_cast hz2
      _ = 100 * 100 := by norm_num

theorem toFixed2_intCast (z : ℤ) : toFixed2 (z : ℚ) = (z : ℚ) := by
  unfold toFixed2
  have hfl : ⌊(z : ℚ) * 100 + 1 / 2⌋ = z * 100 := by
    rw [Int.floor_eq_iff]
    constructor
    · push_cast
      linarith
    · push_cast
      linarith
  rw [hfl]
  push_cast
  field_simp

/-- C6 amended: every match entry of a 200 response has
`confidence = (1 - distance) * 100` rounded to two decimals; that value
lies in [0, 100] whenever the reported distance lies in [0, 1], but the
handler does not clamp, so distances above 1 (which the matcher can
report) yield confidences below 0. -/
theorem confidence_formula (env : Env) (req : Req) (n : Nat) (ms : List MatchEntry)
    (m : MatchEntry) (h : (handlePost env req).1 = .ok n ms) (hm : m ∈ ms) :
    m.confidence = toFixed2 ((1 - m.distance) * 100) ∧
    (0 ≤ m.distance → m.distance ≤ 1 → 0 ≤ m.confidence ∧ m.confidence ≤ 100) := by
  obtain ⟨refs, dets, rfl⟩ := handlePost_ok_inv env req n ms h
  rw [List.mem_map] at hm
  obtain ⟨fm, _, rfl⟩ := hm
  refine ⟨rfl, ?_⟩
  intro hd0 hd1
  have hd0' : (0:ℚ) ≤ fm.distance := hd0
  have hd1' : fm.distance ≤ 1 := hd1
  have hq0 : (0:ℚ) ≤ (1 - fm.distance) * 100 := by nlinarith
  have hq1 : (1 - fm.distance) * 100 ≤ 100 := by nlinarith
  exact toFixed2_nonneg_le _ hq0 hq1

/-- Dataset of the C6 inputs. -/
def dsC6 : List JsEntry := [.obj (.num 1) (some "http://img.example/1.png")]

/-- Oracles for the C6 counterexample: everything succeeds but every
descriptor distance is 6/5, above 1. -/
def envC6 : Env :=
  ⟨true, "", fun url _ => .ok (if url = "http://img.example/g.png" then 1 else 0),
   fun _ => some 0, fun img => if img = 1 then [1] else [], fun _ _ => 6/5⟩

/-- Request for the C6 inputs. -/
def reqC6 : Req := ⟨.arr dsC6, .str "http://img.example/g.png"⟩

/-- C6 counterexample: a 200 response whose only match entry reports
distance 6/5 and confidence -20 — the confidence is not in [0, 100],
because the matcher reports best distances above 1 unclamped. -/
theorem confidence_out_of_range_counterexample :
    (handlePost envC6 reqC6).1 = .ok 1 [⟨"unknown", 6/5, -20⟩] ∧
    (⟨"unknown", 6/5, -20⟩ : MatchEntry).confidence < 0 := by
  constructor
  · have hbest : findBestMatch envC6.dist [⟨"1", [0]⟩] 1 = ⟨"unknown", 6/5⟩ := by
      unfold findBestMatch matchDescriptor computeMeanDistance
      norm_num [FACE_MATCHER_THRESHOLD, envC6]
    have hconf : toFixed2 ((1 - (6:ℚ)/5) * 100) = -20 := by
      rw [show ((1:ℚ) - 6/5) * 100 = ((-20 : ℤ) : ℚ) by norm_num, toFixed2_intCast]
      norm_num
    have h := handlePost_ok_path envC6 dsC6 "http://img.example/g.png" [⟨"1", [0]⟩] 1
      (by decide) (by decide) rfl rfl rfl (by decide)
    rw [show reqC6 = (⟨.arr dsC6, .str "http://img.example/g.png"⟩ : Req) from rfl, h]
    dsimp only
    rw [show envC6.all 1 = [1] from rfl]
    simp only [List.map_cons, List.map_nil, List.length_cons, List.length_nil, hbest,
      toMatchEntry]
    rw [hconf]
  · show (-20:ℚ) < 0
    norm_num

/-- Oracles for the C6 witness: as the counterexample but with distance
1/2, inside [0, 1]. -/
def envC6w : Env :=
  ⟨true, "", fun url _ => .ok (if url = "http://img.example/g.png" then 1 else 0),
   fun _ => some 0, fun img => if img = 1 then [1] else [], fun _ _ => 1/2⟩

/-- Witness for the amended C6 theorem: at distance 1/2 the confidence is
exactly 50 and inside [0, 100]. -/
theorem confidence_formula_witness :
    (handlePost envC6w reqC6).1 = .ok 1 [⟨"1", 1/2, 50⟩] ∧
    ((⟨"1", 1/2, 50⟩ : MatchEntry).confidence =
      toFixed2 ((1 - (⟨"1", 1/2, 50⟩ : MatchEntry).distance) * 100) ∧
    (0 ≤ (⟨"1", 1/2, 50⟩ : MatchEntry).distance →
      (⟨"1", 1/2, 50⟩ : MatchEntry).distance ≤ 1 →
      0 ≤ (⟨"1", 1/2, 50⟩ : MatchEntry).confidence ∧
        (⟨"1", 1/2, 50⟩ : MatchEntry).confidence ≤ 100)) := by
  have hresp : (handlePost envC6w reqC6).1 = .ok 1 [⟨"1", 1/2, 50⟩] := by
    have hbest : findBestMatch envC6w.dist [⟨"1", [0]⟩] 1 = ⟨"1", 1/2⟩ := by
      unfold findBestMatch matchDescriptor computeMeanDistance
      norm_num [FACE_MATCHER_THRESHOLD, envC6w]
    have hconf : toFixed2 ((1 - (1:ℚ)/2) * 100) = 50 := by
      rw [show ((1:ℚ) - 1/2) * 100 = ((50 : ℤ) : ℚ) by norm_num, toFixed2_intCast]
      norm_num
    have h := handlePost_ok_path envC6w dsC6 "http://img.example/g.png" [⟨"1", [0]⟩] 1
      (by decide) (by decide) rfl rfl rfl (by decide)
    rw [show reqC6 = (⟨.arr dsC6, .str "http://img.example/g.png"⟩ : Req) from rfl, h]
    dsimp only
    rw [show envC6w.all 1 = [1] from rfl]
    simp only [List.map_cons, List.map_nil, List.length_cons, List.length_nil, hbest,
      toMatchEntry]
    rw [hconf]
  exact ⟨hresp,
    confidence_formula envC6w reqC6 1 [⟨"1", 1/2, 50⟩] ⟨"1", 1/2, 50⟩ hresp
      (List.mem_singleton_self _)⟩

end FaceApi
